import Mathlib

/-!
Verification of the instance-supervision engine of the amp-manager
repository: a shallow embedding of `TmuxManager` (instance lifecycle,
approval gate, watchdog), `AmpLogMonitor` (log tailing) and the helper
`AmpCliHelpers.isCommandAllowed`, together with theorems settling the
spec claims about them.

Machine conventions: JS `Date` timestamps are modelled as `Nat`
milliseconds; elapsed-time arithmetic is done in `Int` exactly as the JS
code subtracts `getTime()` values.  JS truthiness of optional fields is
modelled explicitly (`Option Bool` compared against `some true`,
`0 || 120` giving `120`, and so on).
-/

namespace AmpManager

/-- JS `String.prototype.includes`: substring containment. -/
def jsIncludes (s pat : String) : Bool := decide (pat.data <:+: s.data)

/-- JS `String.prototype.toLowerCase` (over the character list, so that
it evaluates inside the kernel). -/
def jsToLower (s : String) : String := String.mk (s.data.map Char.toLower)

/-- JS `String.prototype.trim`. -/
def jsTrim (s : String) : String :=
  String.mk (((s.data.dropWhile Char.isWhitespace).reverse.dropWhile
    Char.isWhitespace).reverse)

/-- JS `String.prototype.startsWith`. -/
def jsStartsWith (s pre : String) : Bool := pre.data.isPrefixOf s.data

/-- JS `String.prototype.slice(0, n)`. -/
def jsTake (s : String) (n : Nat) : String := String.mk (s.data.take n)

/-- Instance `status` field (`AmpInstance.status` in the source). -/
inductive Status
  | idle
  | running
  | error
  | stopped
  | waiting_approval
  | authenticating
  deriving DecidableEq

/-- Instance `authStatus` field. -/
inductive AuthStatus
  | authenticated
  | pending
  | failed
  | unknown
  deriving DecidableEq

/-- The `pendingCommand` record stored on an instance. -/
structure PendingCommand where
  command : String
  requiresApproval : Bool
  timestamp : Nat
  deriving DecidableEq

/-- The `stats` record of an instance. -/
structure InstanceStats where
  promptsExecuted : Nat
  tokensUsed : Nat
  uptime : Nat
  restartCount : Nat
  lastRestart : Option Nat
  deriving DecidableEq

/-- `InstanceConfig` from `src/types/AmpInstance.ts`.  The nested
`ampSettings` object is represented by its single field the supervisor
reads, the `amp.commands.allowlist` entry (`ampAllowlist`). -/
structure InstanceConfig where
  name : Option String := none
  workingDirectory : Option String := none
  initialPrompt : Option String := none
  autoRestart : Option Bool := none
  inactivityThreshold : Option Int := none
  requireApproval : Option Bool := none
  errorPatterns : Option (List String) := none
  logLevel : Option String := none
  threadId : Option String := none
  ampAllowlist : Option (List String) := none
  commandAllowlist : Option (List String) := none
  deriving DecidableEq

/-- `AmpInstance` from `src/types/AmpInstance.ts`.  As with the config,
the instance-level `ampSettings` object is represented by the one field
the supervisor code reads from it, `amp.commands.allowlist`. -/
structure AmpInstance where
  id : String
  name : String
  tmuxPane : String
  status : Status
  createdAt : Nat
  lastActivity : Nat
  lastInactivityCheck : Nat
  workingDirectory : Option String
  logFile : Option String
  output : List String
  currentPrompt : Option String
  threadId : Option String
  authStatus : AuthStatus
  pendingCommand : Option PendingCommand
  stats : InstanceStats
  config : InstanceConfig
  errorPatterns : List String
  inactivityThreshold : Int
  ampAllowlist : Option (List String)
  deriving DecidableEq

/-- Events emitted via `emitEvent`; each constructor carries the data
relevant to the claims. -/
inductive Emitted
  | prompt_sent (prompt : String)
  | command_executed (prompt : String)
  | error_detected (pattern : String)
  | restart_triggered (reason : Option String)
  | inactivity_detected
  | approval_required (prompt : String)
  | status_changed (status : Status)
  deriving DecidableEq

/-- The `defaultErrorPatterns` array in `TmuxManager.createInstance`. -/
def defaultErrorPatterns : List String :=
  [ "prompt is too long"
  , "after property name in JSON at"
  , "exceed context limit:"
  , "Shutting down..."
  , "Error:"
  , "ERROR:"
  , "Fatal:"
  , "FATAL:"
  , "timeout"
  , "connection refused"
  , "authentication failed"
  , "Out of free credits"
  , "Amp update failed"
  , "update failed"
  , "network error"
  , "connection timeout" ]

/-- `AmpCliHelpers.isCommandAllowed`: case-insensitive substring or
prefix match of the trimmed prompt against the allowlist. -/
def isCommandAllowed (prompt : String) (allowlist : List String) : Bool :=
  let normalizedPrompt := jsTrim (jsToLower prompt)
  allowlist.any fun allowed =>
    let normalizedAllowed := jsToLower allowed
    jsIncludes normalizedPrompt normalizedAllowed ||
      jsStartsWith normalizedPrompt normalizedAllowed

/-- The record constructed by `TmuxManager.createInstance` (lines
353-443 of the source).  `globalAllowlist` is the
`amp.commands.allowlist` entry of `globalAmpSettings`, spread-merged
with the per-instance setting exactly as `{...global, ...config}` does.
The JS `||` defaulting is modelled with its truthiness: an empty name
string and a `0` threshold fall back to the defaults, while a supplied
(possibly empty) `errorPatterns` array is kept.  `checkAuthStatus`
later flips `status` to `authenticating`; every field this development
reasons about is fixed in this record. -/
def mkInstance (config : Option InstanceConfig) (sessionName id cwd : String)
    (globalAllowlist : Option (List String)) (now : Nat) : AmpInstance :=
  let name := match config.bind (fun c => c.name) with
    | some n => if n = "" then "amp-" ++ jsTake id 8 else n
    | none => "amp-" ++ jsTake id 8
  let workingDir := match config.bind (fun c => c.workingDirectory) with
    | some d => if d = "" then cwd else d
    | none => cwd
  { id := id
    name := name
    tmuxPane := sessionName ++ ":" ++ name
    status := Status.idle
    createdAt := now
    lastActivity := now
    lastInactivityCheck := now
    workingDirectory := some workingDir
    logFile := some ("/tmp/amp-manager/" ++ name ++ ".log")
    output := []
    currentPrompt := none
    threadId := config.bind (fun c => c.threadId)
    authStatus := AuthStatus.unknown
    pendingCommand := none
    config := config.getD {}
    errorPatterns := (config.bind (fun c => c.errorPatterns)).getD defaultErrorPatterns
    inactivityThreshold := match config.bind (fun c => c.inactivityThreshold) with
      | some t => if t = 0 then 120 else t
      | none => 120
    ampAllowlist := ((config.bind (fun c => c.ampAllowlist))).orElse (fun _ => globalAllowlist)
    stats :=
      { promptsExecuted := 0
        tokensUsed := 0
        uptime := 0
        restartCount := 0
        lastRestart := none } }

/-- `TmuxManager.executePrompt` (lines 929-997): re-checks the prompt
against the instance `ampSettings` allowlist with a case-insensitive
`includes`; a non-allowed prompt under `requireApproval` is stored back
as pending, otherwise the prompt runs (status `running`, prompt
recorded, `promptsExecuted` incremented, text forwarded to the tmux
pane, which is external I/O). -/
def executePrompt (inst : AmpInstance) (prompt : String) (now : Nat) :
    AmpInstance × List Emitted :=
  let allowlist := inst.ampAllowlist.getD []
  let isAllowed := allowlist.any fun allowed => jsIncludes (jsToLower prompt) (jsToLower allowed)
  if isAllowed = false ∧ inst.config.requireApproval = some true then
    ({ inst with
        status := Status.waiting_approval
        pendingCommand := some ⟨prompt, true, now⟩ },
      [Emitted.approval_required prompt])
  else
    ({ inst with
        status := Status.running
        currentPrompt := some prompt
        lastActivity := now
        stats := { inst.stats with promptsExecuted := inst.stats.promptsExecuted + 1 } },
      [Emitted.prompt_sent (jsTake prompt 100), Emitted.command_executed (jsTake prompt 100)])

/-- `TmuxManager.sendPrompt` (lines 883-903) on a registered instance:
when `config.requireApproval` is truthy the prompt is held for approval
unconditionally (the allowlist is not consulted here); otherwise it is
executed. -/
def sendPromptI (inst : AmpInstance) (prompt : String) (now : Nat) :
    AmpInstance × List Emitted :=
  if inst.config.requireApproval = some true then
    ({ inst with
        status := Status.waiting_approval
        pendingCommand := some ⟨prompt, true, now⟩ },
      [Emitted.approval_required prompt])
  else
    executePrompt inst prompt now

/-- `TmuxManager.approveCommand` (lines 905-915) on a registered
instance: throws when there is no pending command, otherwise clears it
and re-enters `executePrompt` with the stored command text. -/
def approveCommandI (inst : AmpInstance) (now : Nat) :
    Except String (AmpInstance × List Emitted) :=
  match inst.pendingCommand with
  | none => Except.error ("No pending command for instance " ++ inst.id)
  | some pc =>
      Except.ok (executePrompt { inst with pendingCommand := none } pc.command now)

/-- `TmuxManager.cancelCommand` (lines 917-927) on a registered
instance: unconditionally clears `pendingCommand` and sets `status` to
`idle` (there is no pending-command guard in the source). -/
def cancelCommandI (inst : AmpInstance) : AmpInstance × List Emitted :=
  ({ inst with pendingCommand := none, status := Status.idle },
    [Emitted.status_changed Status.idle])

/-- `TmuxManager.restartInstance` (lines 748-796) on a registered
instance: emits `restart_triggered`, resets the transient fields,
bumps `restartCount` and re-emits `status_changed idle` (the tmux
interrupt / clear / CLI restart are external I/O). -/
def restartInstanceI (inst : AmpInstance) (reason : Option String) (now : Nat) :
    AmpInstance × List Emitted :=
  ({ inst with
      status := Status.idle
      lastActivity := now
      lastInactivityCheck := now
      currentPrompt := none
      pendingCommand := none
      output := []
      stats := { inst.stats with
        restartCount := inst.stats.restartCount + 1
        lastRestart := some now } },
    [Emitted.restart_triggered reason, Emitted.status_changed Status.idle])

/-- The `amp-started` handler installed by
`TmuxManager.startLogMonitoring` (lines 1043-1049): forces `status` to
`running` without touching `pendingCommand`. -/
def onAmpStarted (inst : AmpInstance) : AmpInstance × List Emitted :=
  if inst.status ≠ Status.running then
    ({ inst with status := Status.running },
      [Emitted.status_changed Status.running])
  else (inst, [])

/-- The `amp-idle` handler installed by `TmuxManager.startLogMonitoring`
(lines 1051-1058): forces `status` to `idle` and clears
`currentPrompt`, without touching `pendingCommand`. -/
def onAmpIdle (inst : AmpInstance) : AmpInstance × List Emitted :=
  if inst.status ≠ Status.idle then
    ({ inst with status := Status.idle, currentPrompt := none },
      [Emitted.status_changed Status.idle])
  else (inst, [])

/-- The `state-changed` handler installed by
`TmuxManager.startLogMonitoring` (lines 1060-1078): refreshes
`lastActivity` and flips `status` according to the monitor's running
predicate, again without touching `pendingCommand`. -/
def onStateChanged (inst : AmpInstance) (monitorRunning : Bool) (now : Nat) :
    AmpInstance × List Emitted :=
  let newStatus := if monitorRunning then Status.running else Status.idle
  let inst1 := { inst with lastActivity := now }
  if inst1.status ≠ newStatus then
    ({ inst1 with
        status := newStatus
        currentPrompt := if newStatus = Status.idle then none else inst1.currentPrompt },
      [Emitted.status_changed newStatus])
  else (inst1, [])

/-- The four supervisor operations of claim C1, applied to one
registered instance (a failed approve leaves the instance unchanged,
matching the throw-before-mutation order in the source). -/
inductive SupervisorOp
  | send (prompt : String) (now : Nat)
  | approve (now : Nat)
  | cancel
  | restart (reason : Option String) (now : Nat)

def applySupervisorOp (inst : AmpInstance) : SupervisorOp → AmpInstance
  | SupervisorOp.send p now => (sendPromptI inst p now).1
  | SupervisorOp.approve now =>
      match approveCommandI inst now with
      | Except.ok r => r.1
      | Except.error _ => inst
  | SupervisorOp.cancel => (cancelCommandI inst).1
  | SupervisorOp.restart r now => (restartInstanceI inst r now).1

/-- The claimed instance invariant: `pendingCommand` is non-null iff
`status` is `waiting_approval`. -/
abbrev pendingIff (inst : AmpInstance) : Prop :=
  inst.pendingCommand ≠ none ↔ inst.status = Status.waiting_approval

/-- The invariant actually maintained by the supervisor operations:
`pendingIff` together with the fact that a pending command can only
exist on an instance whose config demands approval (the only writers of
`pendingCommand` are guarded by `config.requireApproval`, and the
config flag itself is never mutated). -/
abbrev pendingInv (inst : AmpInstance) : Prop :=
  pendingIff inst ∧
    (inst.pendingCommand = none ∨ inst.config.requireApproval = some true)

/-- Last `n` elements of a list: JS `array.slice(-n)` for `n > 0` on a
non-empty array. -/
def takeLast (n : Nat) (l : List α) : List α := l.drop (l.length - n)

/-- Whether an emitted event is a `restart_triggered` event. -/
def isRestartEvent : Emitted → Bool
  | Emitted.restart_triggered _ => true
  | _ => false

/-- The scan loop of `TmuxManager.checkForErrorPatterns` (lines
844-857): for each pattern in order, a substring match of the recent
output window emits `error_detected`; when `config.autoRestart` is not
explicitly `false` the instance is restarted and the loop breaks,
otherwise scanning continues on the unchanged instance. -/
def scanForPatterns (inst : AmpInstance) (recentOutput : String) (now : Nat) :
    List String → AmpInstance × List Emitted
  | [] => (inst, [])
  | p :: rest =>
    if jsIncludes recentOutput p then
      if inst.config.autoRestart ≠ some false then
        let r := restartInstanceI inst (some ("Error pattern detected: " ++ p)) now
        (r.1, Emitted.error_detected p :: r.2)
      else
        let r := scanForPatterns inst recentOutput now rest
        (r.1, Emitted.error_detected p :: r.2)
    else
      scanForPatterns inst recentOutput now rest

/-- The recent output window used by the error scan: the last 10
output lines joined with spaces (`output.slice(-10).join(' ')`). -/
def recentWindow (inst : AmpInstance) : String :=
  String.intercalate " " (takeLast 10 inst.output)

/-- First error pattern whose text occurs in the recent output window. -/
def firstMatch (recentOutput : String) (patterns : List String) : Option String :=
  patterns.find? fun p => jsIncludes recentOutput p

/-- `TmuxManager.checkForErrorPatterns` (lines 837-858): no-op on an
empty output buffer, otherwise scans the recent output window. -/
def checkForErrorPatternsI (inst : AmpInstance) (now : Nat) :
    AmpInstance × List Emitted :=
  if inst.output.length = 0 then (inst, [])
  else scanForPatterns inst (recentWindow inst) now inst.errorPatterns

/-- The inactivity part (steps 1 and 2) of
`TmuxManager.checkInstanceHealth` (lines 810-826) for one instance:
elapsed times are `getTime()` differences in milliseconds, divided by
1000 and compared as in the source (`x / 1000 > t` is `x > 1000 * t`
exactly); the throttled branch updates `lastInactivityCheck`, emits
`inactivity_detected` and restarts unless `autoRestart` is explicitly
`false`. -/
def inactivityCheck (inst : AmpInstance) (now : Nat) : AmpInstance × List Emitted :=
  let inactivityMs : Int := (now : Int) - (inst.lastActivity : Int)
  let lastCheckMs : Int := (now : Int) - (inst.lastInactivityCheck : Int)
  if lastCheckMs > 60000 ∧ inactivityMs > inst.inactivityThreshold * 1000 then
    let instA := { inst with lastInactivityCheck := now }
    if inst.config.autoRestart ≠ some false then
      let r :=
        restartInstanceI instA
          (some ("Inactivity detected: " ++ toString (inactivityMs / 1000) ++ "s")) now
      (r.1, Emitted.inactivity_detected :: r.2)
    else
      (instA, [Emitted.inactivity_detected])
  else
    (inst, [])

/-- One watchdog sweep over one instance
(`TmuxManager.checkInstanceHealth` body): the inactivity check followed
by the error-pattern scan on the possibly restarted instance. -/
def checkInstanceHealthI (inst : AmpInstance) (now : Nat) :
    AmpInstance × List Emitted :=
  let r1 := inactivityCheck inst now
  let r2 := checkForErrorPatternsI r1.1 now
  (r2.1, r1.2 ++ r2.2)

/-- A sequence of inactivity sweeps at the given times, accumulating
emitted events. -/
def sweepFold (inst : AmpInstance) (ts : List Nat) : AmpInstance × List Emitted :=
  ts.foldl
    (fun p t =>
      let q := inactivityCheck p.1 t
      (q.1, p.2 ++ q.2))
    (inst, [])

/-! ### Object identity model for `listInstances`

`TmuxManager.listInstances` (lines 1121-1140) returns
`{...instance, stats: {...instance.stats, ...}, pendingCommand:
instance.pendingCommand ? {...instance.pendingCommand, ...} :
undefined}` for each registry entry: the top-level record, the `stats`
object and the `pendingCommand` object are fresh, while the nested
`config`, `output`, `errorPatterns` (and `ampSettings`) objects are the
very objects stored in the registry.  To reason about this aliasing the
nested mutable objects live in an explicit heap addressed by `Nat`
references. -/

/-- Heap cell for an instance `config` object (the fields mutated or
read through shared references in the claims). -/
structure ConfigCell where
  autoRestart : Option Bool
  requireApproval : Option Bool
  deriving DecidableEq

/-- Heap cell for an instance `stats` object. -/
structure StatsCell where
  promptsExecuted : Nat
  tokensUsed : Nat
  uptime : Nat
  restartCount : Nat
  deriving DecidableEq

/-- A heap of nested instance objects, one address space per object
kind, with a fresh-allocation counter `next` bounding every live
reference. -/
structure Heap where
  configs : Nat → ConfigCell
  outputs : Nat → List String
  statsCells : Nat → StatsCell
  patternCells : Nat → List String
  next : Nat

/-- An instance record as stored in the registry: scalar fields by
value, nested objects by reference into the heap.  `pendingCommand` is
kept by value because `listInstances` copies it into a fresh object. -/
structure InstanceRec where
  id : String
  status : Status
  pendingCommand : Option PendingCommand
  configRef : Nat
  outputRef : Nat
  statsRef : Nat
  patternsRef : Nat
  deriving DecidableEq

/-- A heap is well formed when every reference of a registry record is
a previously allocated address. -/
def Heap.wf (h : Heap) (inst : InstanceRec) : Prop :=
  inst.configRef < h.next ∧ inst.outputRef < h.next ∧
    inst.statsRef < h.next ∧ inst.patternsRef < h.next

/-- The per-record copy performed by `listInstances`: a fresh top-level
record and a fresh `stats` object (`{...instance.stats}`), but the
`config`, `output` and `errorPatterns` references are carried over
unchanged (`{...instance}` is a shallow spread). -/
def snapshotOf (h : Heap) (inst : InstanceRec) : InstanceRec × Heap :=
  let freshStats := h.next
  ({ inst with statsRef := freshStats },
    { h with
        statsCells := fun r =>
          if r = freshStats then h.statsCells inst.statsRef else h.statsCells r
        next := h.next + 1 })

/-- `listInstances` over a registry: maps `snapshotOf` over the
records, threading the heap. -/
def listInstancesH (h : Heap) : List InstanceRec → List InstanceRec × Heap
  | [] => ([], h)
  | i :: rest =>
    let (s, h1) := snapshotOf h i
    let (ss, h2) := listInstancesH h1 rest
    (s :: ss, h2)

/-- Write the `autoRestart` field of the config object at reference
`r`. -/
def writeAutoRestart (h : Heap) (r : Nat) (b : Option Bool) : Heap :=
  { h with
      configs := fun q =>
        if q = r then { h.configs q with autoRestart := b } else h.configs q }

/-- Write the `restartCount` field of the stats object at reference
`r`. -/
def writeRestartCount (h : Heap) (r : Nat) (n : Nat) : Heap :=
  { h with
      statsCells := fun q =>
        if q = r then { h.statsCells q with restartCount := n } else h.statsCells q }

/-- The `toggle_auto_restart` handler of `ControlSocket.handleMessage`
(lines 183-196): it takes a record returned by `listInstances` and sets
`config.autoRestart` to the JS negation of its current value
(`!undefined` is `true`) — through the record's `config` reference. -/
def toggleAutoRestart (h : Heap) (snap : InstanceRec) : Heap :=
  writeAutoRestart h snap.configRef
    (some (!((h.configs snap.configRef).autoRestart.getD false)))

/-! ### Log monitor (`AmpLogMonitor`) -/

/-- The derived `AmpState` of `AmpLogMonitor`. -/
structure AmpState where
  type : String
  statusMessage : Option String
  inferenceState : Option String
  lastActivity : Nat
  deriving DecidableEq

/-- A parsed structured log record (`AmpLogEvent` in the source); the
`data` payload is kept opaque. -/
structure AmpLogEvent where
  timestamp : Nat
  level : String
  message : String
  data : Option String
  deriving DecidableEq

/-- The line splitting of `AmpLogMonitor.parseLogContent`:
`content.split('\n').filter(line => line.trim())`. -/
def logLines (content : String) : List String :=
  (content.splitOn "\n").filter fun line => jsTrim line ≠ ""

/-- `AmpLogMonitor.parseLogContent` (lines 124-136): each non-blank
line is parsed as a JSON record and folded into the state; a line on
which the parse fails is skipped (`catch { continue }`) and leaves the
state untouched.  `parse` models `JSON.parse` plus the record cast
(returning `none` where the JS code would throw and catch), and
`process` models `processLogEntry`; the claim under verification is
about this control flow, not about either callee. -/
def parseLogContent (parse : String → Option AmpLogEvent)
    (process : AmpState → AmpLogEvent → AmpState)
    (content : String) (st : AmpState) : AmpState :=
  (logLines content).foldl
    (fun s line =>
      match parse line with
      | some entry => process s entry
      | none => s)
    st

/-! ### Concrete instances used by counterexamples and witnesses -/

/-- A freshly created idle instance with an empty configuration. -/
def sampleInst : AmpInstance :=
  mkInstance (some {}) "amp-manager" "abcd1234" "/work" none 0

/-- An instance with `requireApproval` set and the default global
allowlist (which contains `git status`). -/
def c2Inst : AmpInstance :=
  { sampleInst with
      config := { requireApproval := some true }
      ampAllowlist := some ["git status", "ls -la", "pwd", "cat", "grep"] }

/-- An approval-gated instance holding a pending non-allowlisted
command. -/
def c3Inst : AmpInstance :=
  { sampleInst with
      status := Status.waiting_approval
      config := { requireApproval := some true }
      ampAllowlist := some ["git status", "ls -la", "pwd", "cat", "grep"]
      pendingCommand := some { command := "rm -rf /", requiresApproval := true, timestamp := 500 } }

/-- A running instance with no pending command. -/
def c5Inst : AmpInstance := { sampleInst with status := Status.running }

/-- An instance waiting for approval with a stored pending command. -/
def c1Inst : AmpInstance :=
  { sampleInst with
      status := Status.waiting_approval
      config := { requireApproval := some true }
      pendingCommand := some { command := "rm -rf /", requiresApproval := true, timestamp := 500 } }

/-- An instance that has been inactive long enough to trip the
watchdog (timestamps 0, threshold 120 s, sweep at 200 s). -/
def c6Inst : AmpInstance := sampleInst

/-- An instance whose recent output matches an error pattern. -/
def c7Inst : AmpInstance :=
  { sampleInst with output := ["$ amp", "Error: something broke"] }

/-- A one-cell heap for the snapshot claims. -/
def h0 : Heap :=
  { configs := fun _ => { autoRestart := none, requireApproval := some true }
    outputs := fun _ => []
    statsCells := fun _ => { promptsExecuted := 3, tokensUsed := 7, uptime := 0, restartCount := 0 }
    patternCells := fun _ => defaultErrorPatterns
    next := 1 }

/-- The registry record living in `h0`. -/
def reg0 : InstanceRec :=
  { id := "inst-1", status := Status.idle, pendingCommand := none
    configRef := 0, outputRef := 0, statsRef := 0, patternsRef := 0 }

/-- The record `listInstances` hands out for `reg0`. -/
def snap0 : InstanceRec := (snapshotOf h0 reg0).1

/-- The heap after the `listInstances` call on the registry `[reg0]`. -/
def heap1 : Heap := (listInstancesH h0 [reg0]).2

/-! ## Theorems -/

/-- C4: for every registered instance, `restartInstance` yields status
`idle`, no pending command, no current prompt, an empty output buffer,
and a `restartCount` exactly one above its pre-restart value. -/
theorem restart_resets_state (inst : AmpInstance) (reason : Option String) (now : Nat) :
    (restartInstanceI inst reason now).1.status = Status.idle ∧
    (restartInstanceI inst reason now).1.pendingCommand = none ∧
    (restartInstanceI inst reason now).1.currentPrompt = none ∧
    (restartInstanceI inst reason now).1.output = [] ∧
    (restartInstanceI inst reason now).1.stats.restartCount = inst.stats.restartCount + 1 := by
  simp [restartInstanceI]

/-- C10: `createInstance` with a config that omits `inactivityThreshold`
and `errorPatterns` produces an instance with a 120-second threshold,
the built-in default error-pattern list (which contains `Error:`,
`Out of free credits` and `authentication failed`), `authStatus`
`unknown`, and all counters of `stats` equal to `0`. -/
theorem create_instance_defaults (cfg : InstanceConfig) (sessionName id cwd : String)
    (g : Option (List String)) (now : Nat)
    (h1 : cfg.inactivityThreshold = none) (h2 : cfg.errorPatterns = none) :
    (mkInstance (some cfg) sessionName id cwd g now).inactivityThreshold = 120 ∧
    (mkInstance (some cfg) sessionName id cwd g now).errorPatterns = defaultErrorPatterns ∧
    "Error:" ∈ (mkInstance (some cfg) sessionName id cwd g now).errorPatterns ∧
    "Out of free credits" ∈ (mkInstance (some cfg) sessionName id cwd g now).errorPatterns ∧
    "authentication failed" ∈ (mkInstance (some cfg) sessionName id cwd g now).errorPatterns ∧
    (mkInstance (some cfg) sessionName id cwd g now).authStatus = AuthStatus.unknown ∧
    (mkInstance (some cfg) sessionName id cwd g now).stats.promptsExecuted = 0 ∧
    (mkInstance (some cfg) sessionName id cwd g now).stats.tokensUsed = 0 ∧
    (mkInstance (some cfg) sessionName id cwd g now).stats.uptime = 0 ∧
    (mkInstance (some cfg) sessionName id cwd g now).stats.restartCount = 0 := by
  have hpat : (mkInstance (some cfg) sessionName id cwd g now).errorPatterns
      = defaultErrorPatterns := by
    simp [mkInstance, h2]
  refine ⟨by simp [mkInstance, h1], hpat, ?_, ?_, ?_, by simp [mkInstance],
    by simp [mkInstance], by simp [mkInstance], by simp [mkInstance], by simp [mkInstance]⟩
  all_goals rw [hpat]; decide

/-- Witness for C10 at the empty configuration. -/
theorem create_instance_defaults_witness :
    (mkInstance (some {}) "amp-manager" "abcd1234" "/work" none 0).inactivityThreshold = 120 ∧
    (mkInstance (some {}) "amp-manager" "abcd1234" "/work" none 0).errorPatterns
      = defaultErrorPatterns :=
  ⟨(create_instance_defaults {} "amp-manager" "abcd1234" "/work" none 0 rfl rfl).1,
    (create_instance_defaults {} "amp-manager" "abcd1234" "/work" none 0 rfl rfl).2.1⟩

/-- C9: `parseLogContent` folds exactly the lines that parse as
structured records into the state; lines on which the parse fails
contribute nothing (the fold over all lines equals the fold over the
successfully parsed entries), and the function is total, so a malformed
line can never abort the monitor. -/
theorem malformed_lines_skipped (parse : String → Option AmpLogEvent)
    (process : AmpState → AmpLogEvent → AmpState) (content : String) (st : AmpState) :
    parseLogContent parse process content st
      = ((logLines content).filterMap parse).foldl process st := by
  unfold parseLogContent
  induction logLines content generalizing st with
  | nil => rfl
  | cons l ls ih =>
    cases h : parse l with
    | none => simp [h, ih]
    | some e => simp [h, ih]

/-- C2: submitting an allowlisted command to an instance with
`requireApproval` set does NOT bypass approval: `sendPrompt` never
consults the allowlist, so `git status` — which
`AmpCliHelpers.isCommandAllowed` accepts against the default
allowlist — is still held in `waiting_approval` instead of running
immediately. -/
theorem allowlisted_submit_still_waits :
    isCommandAllowed "git status" ["git status", "ls -la", "pwd", "cat", "grep"] = true ∧
    (sendPromptI c2Inst "git status" 1000).1.status = Status.waiting_approval ∧
    (sendPromptI c2Inst "git status" 1000).1.status ≠ Status.running ∧
    (sendPromptI c2Inst "git status" 1000).1.pendingCommand
      = some { command := "git status", requiresApproval := true, timestamp := 1000 } ∧
    (sendPromptI c2Inst "git status" 1000).2 = [Emitted.approval_required "git status"] := by
  decide

/-- C3: approving a stored command re-evaluates the allowlist:
`approveCommand` clears `pendingCommand` and re-enters `executePrompt`,
which checks the `ampSettings` allowlist again and — the stored
`rm -rf /` not matching — stores the command back as pending and
returns to `waiting_approval` instead of executing it
(`promptsExecuted` stays unchanged). -/
theorem approve_reevaluates_allowlist :
    jsIncludes (jsToLower "rm -rf /") (jsToLower "git status") = false ∧
    (approveCommandI c3Inst 1000).toOption =
      some
        ({ c3Inst with
            pendingCommand := some { command := "rm -rf /", requiresApproval := true, timestamp := 1000 } },
          [Emitted.approval_required "rm -rf /"]) ∧
    ({ c3Inst with
        pendingCommand := some { command := "rm -rf /", requiresApproval := true, timestamp := 1000 } }
      : AmpInstance).status = Status.waiting_approval ∧
    ({ c3Inst with
        pendingCommand := some { command := "rm -rf /", requiresApproval := true, timestamp := 1000 } }
      : AmpInstance).stats.promptsExecuted = c3Inst.stats.promptsExecuted := by
  decide

/-- C5 counterexample: `cancelCommand` on a registered instance whose
`pendingCommand` is null does not fail — it succeeds and moves the
instance from `running` to `idle`, contradicting the claim that reject
fails with `NoPendingCommand` and leaves the status unchanged. -/
theorem cancel_succeeds_without_pending :
    c5Inst.pendingCommand = none ∧
    c5Inst.status = Status.running ∧
    (cancelCommandI c5Inst).1.status = Status.idle ∧
    (cancelCommandI c5Inst).2 = [Emitted.status_changed Status.idle] := by
  decide

/-- C5 amended: on a registered instance with no pending command,
`approveCommand` fails with the no-pending-command error (the throw
happens before any mutation, so the instance is unchanged), while
`cancelCommand` succeeds unconditionally, clearing `pendingCommand` and
forcing `status` to `idle`; neither operation inspects `status`. -/
theorem approve_fails_cancel_resets (inst : AmpInstance) (now : Nat)
    (h : inst.pendingCommand = none) :
    approveCommandI inst now
      = Except.error ("No pending command for instance " ++ inst.id) ∧
    (cancelCommandI inst).1.status = Status.idle ∧
    (cancelCommandI inst).1.pendingCommand = none := by
  refine ⟨?_, rfl, rfl⟩
  unfold approveCommandI
  rw [h]

/-- Witness for the amended C5 at a concrete pending-free instance. -/
theorem approve_fails_cancel_resets_witness :
    approveCommandI c5Inst 0
      = Except.error ("No pending command for instance " ++ c5Inst.id) ∧
    (cancelCommandI c5Inst).1.status = Status.idle ∧
    (cancelCommandI c5Inst).1.pendingCommand = none :=
  approve_fails_cancel_resets c5Inst 0 rfl

/-- C1 counterexample: a log-monitor-driven status update breaks the
`pendingCommand`-iff-`waiting_approval` invariant.  On an instance
waiting for approval with a stored pending command, the `amp-idle`
handler flips `status` to `idle` without clearing `pendingCommand`. -/
theorem pending_iff_breaks_on_log_update :
    pendingIff c1Inst ∧
    (onAmpIdle c1Inst).1.pendingCommand ≠ none ∧
    (onAmpIdle c1Inst).1.status = Status.idle ∧
    ¬ pendingIff (onAmpIdle c1Inst).1 := by
  decide

/-- `executePrompt` establishes the pending-command invariant whenever
it starts from an instance without a pending command. -/
theorem executePrompt_pendingInv (inst : AmpInstance) (p : String) (now : Nat)
    (hnone : inst.pendingCommand = none) :
    pendingInv (executePrompt inst p now).1 := by
  simp only [executePrompt]
  split
  next hcond =>
    exact ⟨by simp [pendingIff], Or.inr hcond.2⟩
  next =>
    exact ⟨by simp [pendingIff, hnone], Or.inl hnone⟩

/-- C1 amended: the invariant `pendingCommand ≠ none ↔ status =
waiting_approval` is preserved by each of the four supervisor
operations (`sendPrompt`, `approveCommand`, `cancelCommand`,
`restartInstance`), strengthened by the auxiliary fact that a pending
command only exists under `requireApproval` (which the operations also
preserve, since they never write the config).  The log-monitor-driven
status updates are exempted: they can break the equivalence, as the
counterexample shows. -/
theorem pending_inv_preserved_by_supervisor_ops (inst : AmpInstance) (op : SupervisorOp)
    (h : pendingInv inst) : pendingInv (applySupervisorOp inst op) := by
  cases op with
  | send p now =>
    by_cases hra : inst.config.requireApproval = some true
    · simp only [applySupervisorOp, sendPromptI, if_pos hra]
      exact ⟨by simp [pendingIff], Or.inr hra⟩
    · simp only [applySupervisorOp, sendPromptI, if_neg hra]
      apply executePrompt_pendingInv
      rcases h.2 with hn | hr
      · exact hn
      · exact absurd hr hra
  | approve now =>
    cases hpc : inst.pendingCommand with
    | none =>
      simp only [applySupervisorOp, approveCommandI, hpc]
      exact h
    | some pc =>
      simp only [applySupervisorOp, approveCommandI, hpc]
      exact executePrompt_pendingInv _ _ _ rfl
  | cancel =>
    exact ⟨by simp [applySupervisorOp, cancelCommandI, pendingIff], Or.inl rfl⟩
  | restart r now =>
    exact ⟨by simp [applySupervisorOp, restartInstanceI, pendingIff], Or.inl rfl⟩

/-- Witness for the amended C1: the invariant survives a concrete
approve on the waiting instance `c1Inst`. -/
theorem pending_inv_preserved_witness :
    pendingInv c1Inst ∧
    pendingInv (applySupervisorOp c1Inst (SupervisorOp.approve 1000)) :=
  ⟨by decide,
    pending_inv_preserved_by_supervisor_ops c1Inst (SupervisorOp.approve 1000) (by decide)⟩

/-- When at most 60 seconds have elapsed since `lastInactivityCheck`,
the inactivity check does nothing at all. -/
theorem inactivityCheck_skip (inst : AmpInstance) (t : Nat)
    (h : (t : Int) - (inst.lastInactivityCheck : Int) ≤ 60000) :
    inactivityCheck inst t = (inst, []) := by
  have hn : ¬ ((t : Int) - (inst.lastInactivityCheck : Int) > 60000 ∧
      (t : Int) - (inst.lastActivity : Int) > inst.inactivityThreshold * 1000) := by
    rintro ⟨h1, -⟩
    omega
  simp only [inactivityCheck, if_neg hn]

/-- Whenever the inactivity check acts (emits anything), it stamps
`lastInactivityCheck` with the sweep time. -/
theorem inactivityCheck_acts_updates (inst : AmpInstance) (t : Nat)
    (h : (inactivityCheck inst t).2 ≠ []) :
    (inactivityCheck inst t).1.lastInactivityCheck = t := by
  by_cases hc : ((t : Int) - (inst.lastInactivityCheck : Int) > 60000 ∧
      (t : Int) - (inst.lastActivity : Int) > inst.inactivityThreshold * 1000)
  · by_cases ha : inst.config.autoRestart ≠ some false
    · simp [inactivityCheck, if_pos hc, ha, restartInstanceI]
    · simp [inactivityCheck, if_pos hc, ha]
  · simp only [inactivityCheck, if_neg hc] at h
    exact absurd rfl h

/-- An instance whose `lastInactivityCheck` is `t1` is skipped by every
inactivity sweep within the 60-second throttle window after `t1`. -/
theorem sweepFold_skip (inst : AmpInstance) (t1 : Nat) (ts : List Nat)
    (hlc : inst.lastInactivityCheck = t1)
    (hts : ∀ t ∈ ts, (t : Int) - (t1 : Int) ≤ 60000) :
    sweepFold inst ts = (inst, []) := by
  induction ts with
  | nil => rfl
  | cons t rest ih =>
    have hm : inactivityCheck inst t = (inst, []) := by
      apply inactivityCheck_skip
      rw [hlc]
      exact hts t (List.mem_cons_self t rest)
    unfold sweepFold at ih ⊢
    simp only [List.foldl_cons, hm]
    exact ih fun u hu => hts u (List.mem_cons_of_mem t hu)

/-- C6: (i) a sweep arriving less than 60 seconds after
`lastInactivityCheck` skips the inactivity check entirely; (ii) when
the check acts it updates `lastInactivityCheck` to the sweep time;
(iii) hence once a sweep has issued an inactivity-triggered restart at
`t1`, every further sweep within the 60-second throttle window neither
restarts nor emits nor changes anything. -/
theorem watchdog_inactivity_throttle (inst : AmpInstance) (t1 : Nat) (ts : List Nat) :
    ((t1 : Int) - (inst.lastInactivityCheck : Int) < 60000 →
      inactivityCheck inst t1 = (inst, [])) ∧
    ((inactivityCheck inst t1).2 ≠ [] →
      (inactivityCheck inst t1).1.lastInactivityCheck = t1) ∧
    ((inactivityCheck inst t1).2.any isRestartEvent = true →
      (∀ t ∈ ts, (t : Int) - (t1 : Int) ≤ 60000) →
      sweepFold (inactivityCheck inst t1).1 ts = ((inactivityCheck inst t1).1, [])) := by
  refine ⟨fun h => inactivityCheck_skip inst t1 (le_of_lt h),
    inactivityCheck_acts_updates inst t1, ?_⟩
  intro hfire hts
  have hne : (inactivityCheck inst t1).2 ≠ [] := by
    intro he
    rw [he] at hfire
    exact absurd hfire (by simp)
  exact sweepFold_skip _ _ _ (inactivityCheck_acts_updates inst t1 hne) hts

/-- Witness for C6: the skip branch at a fresh instance, and the
no-second-restart property after a real inactivity restart of
`sampleInst` (inactive since time `0`, swept at `200` s, follow-up
sweeps at `210` s and `260` s). -/
theorem watchdog_inactivity_throttle_witness :
    inactivityCheck sampleInst 5 = (sampleInst, []) ∧
    sweepFold (inactivityCheck sampleInst 200000).1 [210000, 260000]
      = ((inactivityCheck sampleInst 200000).1, []) :=
  ⟨(watchdog_inactivity_throttle sampleInst 5 []).1 (by decide),
    (watchdog_inactivity_throttle sampleInst 200000 [210000, 260000]).2.2
      (by decide) (by decide)⟩

/-- When `autoRestart` is explicitly `false`, the scan loop never
restarts. -/
theorem scan_no_restart_when_off (inst : AmpInstance) (recent : String) (now : Nat)
    (ps : List String) (h : inst.config.autoRestart = some false) :
    (scanForPatterns inst recent now ps).2.filter isRestartEvent = [] := by
  induction ps with
  | nil => rfl
  | cons p rest ih =>
    have ha : ¬ (inst.config.autoRestart ≠ some false) := by simp [h]
    by_cases hm : jsIncludes recent p = true
    · simp only [scanForPatterns, if_pos hm, if_neg ha, List.filter_cons]
      simpa [isRestartEvent] using ih
    · simpa only [scanForPatterns, if_neg hm] using ih

/-- When `autoRestart` is not explicitly `false`, the scan loop is
exactly: restart on the first matching pattern, nothing otherwise. -/
theorem scan_characterization (inst : AmpInstance) (recent : String) (now : Nat)
    (ps : List String) (h : inst.config.autoRestart ≠ some false) :
    scanForPatterns inst recent now ps =
      match firstMatch recent ps with
      | none => (inst, [])
      | some p =>
        ((restartInstanceI inst (some ("Error pattern detected: " ++ p)) now).1,
          Emitted.error_detected p ::
            (restartInstanceI inst (some ("Error pattern detected: " ++ p)) now).2) := by
  induction ps with
  | nil => rfl
  | cons p rest ih =>
    by_cases hm : jsIncludes recent p = true
    · simp [scanForPatterns, if_pos hm, if_pos h, firstMatch, List.find?_cons, hm]
    · simp only [scanForPatterns, if_neg hm, firstMatch, List.find?_cons, hm]
      exact ih

/-- The first emitted event of the scan is the `error_detected` event
of the first matching pattern, in every configuration. -/
theorem scan_head (inst : AmpInstance) (recent : String) (now : Nat)
    (ps : List String) :
    (scanForPatterns inst recent now ps).2.head? =
      (firstMatch recent ps).map Emitted.error_detected := by
  induction ps with
  | nil => rfl
  | cons p rest ih =>
    by_cases hm : jsIncludes recent p = true
    · by_cases ha : inst.config.autoRestart ≠ some false
      · simp [scanForPatterns, if_pos hm, if_pos ha, firstMatch, List.find?_cons, hm]
      · simp [scanForPatterns, if_pos hm, if_neg ha, firstMatch, List.find?_cons, hm]
    · simp only [scanForPatterns, if_neg hm, firstMatch, List.find?_cons, hm]
      exact ih

/-- C7: in every watchdog sweep and for every instance, the error scan
(i) issues at most one restart; (ii) emits `error_detected` for the
first matching pattern first (or nothing when no pattern matches);
(iii) when `autoRestart` is not explicitly `false`, it is exactly: on
the first matching pattern emit `error_detected`, restart, and stop
scanning — on no match, do nothing. -/
theorem error_scan_single_restart (inst : AmpInstance) (now : Nat) :
    ((checkForErrorPatternsI inst now).2.filter isRestartEvent).length ≤ 1 ∧
    (checkForErrorPatternsI inst now).2.head? =
      (if inst.output.length = 0 then none
        else firstMatch (recentWindow inst) inst.errorPatterns).map
        Emitted.error_detected ∧
    (inst.config.autoRestart ≠ some false →
      checkForErrorPatternsI inst now =
        match (if inst.output.length = 0 then none
                else firstMatch (recentWindow inst) inst.errorPatterns) with
        | none => (inst, [])
        | some p =>
          ((restartInstanceI inst (some ("Error pattern detected: " ++ p)) now).1,
            Emitted.error_detected p ::
              (restartInstanceI inst (some ("Error pattern detected: " ++ p)) now).2)) := by
  by_cases ho : inst.output.length = 0
  · simp [checkForErrorPatternsI, ho]
  · simp only [checkForErrorPatternsI, if_neg ho]
    refine ⟨?_, scan_head inst (recentWindow inst) now inst.errorPatterns, ?_⟩
    · by_cases ha : inst.config.autoRestart = some false
      · rw [scan_no_restart_when_off inst (recentWindow inst) now inst.errorPatterns ha]
        simp
      · rw [scan_characterization inst (recentWindow inst) now inst.errorPatterns ha]
        cases firstMatch (recentWindow inst) inst.errorPatterns with
        | none => simp
        | some p => simp [restartInstanceI, isRestartEvent]
    · intro ha
      exact scan_characterization inst (recentWindow inst) now inst.errorPatterns ha

/-- Witness for C7 on `c7Inst`, whose output matches `Error:` with
`autoRestart` unset. -/
theorem error_scan_single_restart_witness :
    c7Inst.config.autoRestart ≠ some false ∧
    ((checkForErrorPatternsI c7Inst 1000).2.filter isRestartEvent).length ≤ 1 ∧
    checkForErrorPatternsI c7Inst 1000 =
      match (if c7Inst.output.length = 0 then none
              else firstMatch (recentWindow c7Inst) c7Inst.errorPatterns) with
      | none => (c7Inst, [])
      | some p =>
        ((restartInstanceI c7Inst (some ("Error pattern detected: " ++ p)) 1000).1,
          Emitted.error_detected p ::
            (restartInstanceI c7Inst (some ("Error pattern detected: " ++ p)) 1000).2) :=
  ⟨by decide, (error_scan_single_restart c7Inst 1000).1,
    (error_scan_single_restart c7Inst 1000).2.2 (by decide)⟩

/-- C8 counterexample: a record returned by `listInstances` is not a
deep snapshot.  On the one-instance registry `[reg0]`, the returned
record `snap0` shares its `config` reference with the registry, so the
`toggle_auto_restart` handler — which mutates `config.autoRestart`
through exactly such a returned record — changes the instance stored in
the supervisor's registry (from unset to `true`). -/
theorem snapshot_config_aliased :
    (listInstancesH h0 [reg0]).1 = [snap0] ∧
    snap0.configRef = reg0.configRef ∧
    (heap1.configs reg0.configRef).autoRestart = none ∧
    ((toggleAutoRestart heap1 snap0).configs reg0.configRef).autoRestart = some true := by
  refine ⟨rfl, rfl, rfl, rfl⟩

/-- C8 amended: `listInstances` returns shallow copies.  The top-level
record and the `stats` object are fresh (mutating the copy's stats does
not affect the registry), but the `config`, `output` and
`errorPatterns` references are shared, so mutating those nested fields
through a returned record changes the registry instance — behaviour
the `toggle_auto_restart` handler relies on. -/
theorem snapshot_shallow_copy (h : Heap) (inst : InstanceRec) (b : Option Bool) (n : Nat)
    (hwf : inst.statsRef < h.next) :
    (snapshotOf h inst).1.configRef = inst.configRef ∧
    (snapshotOf h inst).1.outputRef = inst.outputRef ∧
    (snapshotOf h inst).1.patternsRef = inst.patternsRef ∧
    (snapshotOf h inst).1.statsRef ≠ inst.statsRef ∧
    (snapshotOf h inst).2.statsCells (snapshotOf h inst).1.statsRef
      = h.statsCells inst.statsRef ∧
    (writeRestartCount (snapshotOf h inst).2 (snapshotOf h inst).1.statsRef n).statsCells
      inst.statsRef = h.statsCells inst.statsRef ∧
    ((writeAutoRestart (snapshotOf h inst).2 (snapshotOf h inst).1.configRef b).configs
      inst.configRef).autoRestart = b := by
  have hne : inst.statsRef ≠ h.next := Nat.ne_of_lt hwf
  refine ⟨rfl, rfl, rfl, ?_, ?_, ?_, ?_⟩
  · simp only [snapshotOf]
    omega
  · simp [snapshotOf]
  · simp [snapshotOf, writeRestartCount, hne]
  · simp [snapshotOf, writeAutoRestart]

/-- Witness for the amended C8 on the concrete heap `h0`. -/
theorem snapshot_shallow_copy_witness :
    (snapshotOf h0 reg0).1.statsRef ≠ reg0.statsRef ∧
    (writeRestartCount (snapshotOf h0 reg0).2 (snapshotOf h0 reg0).1.statsRef 9).statsCells
      reg0.statsRef = h0.statsCells reg0.statsRef ∧
    ((writeAutoRestart (snapshotOf h0 reg0).2 (snapshotOf h0 reg0).1.configRef
      (some false)).configs reg0.configRef).autoRestart = some false :=
  ⟨(snapshot_shallow_copy h0 reg0 (some false) 9 (by decide)).2.2.2.1,
    (snapshot_shallow_copy h0 reg0 (some false) 9 (by decide)).2.2.2.2.2.1,
    (snapshot_shallow_copy h0 reg0 (some false) 9 (by decide)).2.2.2.2.2.2⟩

end AmpManager
